import Mathlib

/-!
Verification development for the BankerBot repository: a shallow embedding
of the ledger client (src/cogs/unbelievaboat.py), the economy registry
(src/cogs/database.py), the authorization checks (src/cogs/admin.py,
src/cogs/economy.py) and the transfer saga (src/cogs/transfer.py),
together with theorems settling the specification claims about them.

Money amounts are modelled as rationals; remote-API outcomes are modelled
as explicit response values so that every embedded operation is a total,
executable Lean function.
-/

namespace BankerBot

/-! ### Ledger client: request layer

Embedding of UnbelievaBoat._make_request (src/cogs/unbelievaboat.py,
lines 37-76).  A run of the function is driven by the finite sequence of
responses the remote returns for the successive HTTP attempts: status 200
returns the parsed data, status 429 sleeps and re-issues the request (the
recursive self-call consumes the next response of the sequence), and the
terminal statuses 404, 403 and any other error return None.  A run that
consumes the whole response sequence while still re-issuing the request is
reported as `stillRetrying`. -/

/-- One HTTP response of the remote ledger API, as classified by
`_make_request`: 200 with parsed data, 429 with a Retry-After duration,
404, 403, or any other error status. -/
inductive ApiResponse (α : Type) where
  | ok (data : α)
  | throttled (retryAfter : Nat)
  | notFound
  | forbidden
  | otherError
deriving Repr, DecidableEq

/-- Outcome of a `_make_request` run over a finite response sequence:
either the Python function returned (with data, or None on a terminal
error status), or it consumed every response while still retrying. -/
inductive RequestOutcome (α : Type) where
  | done (result : Option α)
  | stillRetrying
deriving Repr, DecidableEq

/-- Embedding of `UnbelievaBoat._make_request`: each 429 response triggers
a recursive retry of the same request against the rest of the response
sequence; 200 returns the data; 404, 403 and other error statuses return
None immediately.  There is no retry counter anywhere in the function. -/
def makeRequest {α : Type} : List (ApiResponse α) → RequestOutcome α
  | [] => .stillRetrying
  | .ok d :: _ => .done (some d)
  | .throttled _ :: rest => makeRequest rest
  | .notFound :: _ => .done none
  | .forbidden :: _ => .done none
  | .otherError :: _ => .done none

/-! ### Ledger client: balance layer

Embedding of get_user_balance / set_user_balance / modify_user_balance
(src/cogs/unbelievaboat.py, lines 82-174).  The outcome of the initial
GET and of the final PATCH are supplied explicitly: `getResult` is what
get_user_balance returned, and `setBalance` maps the cash and bank values
sent in the PATCH body to the snapshot set_user_balance returned. -/

/-- A balance snapshot as parsed by get_user_balance / set_user_balance:
the cash, bank and total fields of the API response. -/
structure UserBalance where
  cash : ℚ
  bank : ℚ
  total : ℚ
deriving Repr, DecidableEq

/-- Embedding of `UnbelievaBoat.modify_user_balance` (lines 136-174).
Returns the value the Python function returns together with the list of
(cash, bank) pairs written through set_user_balance (empty or a single
pair; recorded to make "performs no write" provable).  Faithful to the
source: a failed read returns None with no write; new_cash / new_bank
start from the read values and add the supplied deltas; if either is
negative the function returns None with no write; otherwise both computed
values are written and the set_user_balance result is returned. -/
def modify_user_balance (getResult : Option UserBalance)
    (setBalance : ℚ → ℚ → Option UserBalance)
    (cash_change bank_change : Option ℚ) :
    Option UserBalance × List (ℚ × ℚ) :=
  match getResult with
  | none => (none, [])
  | some current =>
    let new_cash :=
      match cash_change with
      | some c => current.cash + c
      | none => current.cash
    let new_bank :=
      match bank_change with
      | some b => current.bank + b
      | none => current.bank
    if new_cash < 0 ∨ new_bank < 0 then (none, [])
    else (setBalance new_cash new_bank, [(new_cash, new_bank)])

/-- The PATCH semantics of the remote ledger per the API contract: the updated
snapshot echoes the written cash and bank values, with total their sum. -/
def patchSnapshot (c b : ℚ) : UserBalance := ⟨c, b, c + b⟩

/-- `modify_user_balance` run against a live account in state `st`: the
read succeeds and returns `st`, and the PATCH succeeds and returns the
updated snapshot of what was written. -/
def modifyAgainstLedger (st : UserBalance) (cash_change bank_change : Option ℚ) :
    Option UserBalance × List (ℚ × ℚ) :=
  modify_user_balance (some st) (fun c b => some (patchSnapshot c b)) cash_change bank_change

/-! ### Economy registry (src/cogs/database.py) -/

/-- Approval status of an enrolled economy. -/
inductive EconStatus where
  | pending
  | approved
  | rejected
deriving Repr, DecidableEq

/-- The mutable fields of one row of the economies table that
`update_economy_status` touches: the status, the recorded approver, and
whether approved_at has been written. -/
structure EconomyRow where
  status : EconStatus
  approved_by : Option Nat
  has_approved_at : Bool
deriving Repr, DecidableEq

/-- Python truthiness of the optional approved_by argument: None and 0 are
falsy, any other integer is truthy. -/
def truthy : Option Nat → Bool
  | none => false
  | some n => n != 0

/-- Embedding of `Database.update_economy_status` (src/cogs/database.py,
lines 144-164) acting on the row the WHERE clause matches.  Returns the
boolean result of the Python call together with the updated row.  Faithful
to the source: when the new status is approved and approved_by is truthy
the UPDATE writes status, approved_at and approved_by; otherwise it writes
only the status; the current status is never consulted and the function
returns True either way. -/
def update_economy_status (row : EconomyRow) (newStatus : EconStatus)
    (approvedBy : Option Nat) : Bool × EconomyRow :=
  if newStatus = EconStatus.approved ∧ truthy approvedBy then
    (true, ⟨newStatus, approvedBy, true⟩)
  else
    (true, { row with status := newStatus })

/-! ### Authorization checks (src/cogs/admin.py, src/cogs/economy.py) -/

/-- Embedding of `Database.is_officer` (src/cogs/database.py, lines
272-283): membership of the user id in the approved_officers table. -/
def is_officer (officers : List Nat) (uid : Nat) : Bool :=
  officers.contains uid

/-- Embedding of `AdminCommands.is_officer_or_owner` (src/cogs/admin.py,
lines 26-33): true for the configured owner_user_id, else the officer-set
membership check.  This guard protects economy removal (kick_economy). -/
def is_officer_or_owner (ownerUserId : Nat) (officers : List Nat) (uid : Nat) : Bool :=
  if uid = ownerUserId then true else is_officer officers uid

/-- The authorization check guarding economy approval and rejection:
`ApprovalView.approve_button` and `ApprovalView.reject_button`
(src/cogs/economy.py, lines 322 and 383) call `db.is_officer` directly,
with no owner special case. -/
def approvalGuard (officers : List Nat) (uid : Nat) : Bool :=
  is_officer officers uid

/-! ### Exchange conversion (src/cogs/transfer.py, lines 125-128)

The conversion is written inline in the transfer command:
amount_usd = amount / rate_usd(source); target = amount_usd * rate_usd(target).
Python float division raises ZeroDivisionError when the source rate is 0,
modelled here as `none`; every other rate, negative rates included, is fed
straight into the arithmetic. -/

/-- The pivot conversion exactly as the transfer command computes it:
`none` models the ZeroDivisionError Python raises on a zero source rate;
any nonzero source rate, negative ones included, yields
amount / rateSource * rateTarget. -/
def convertCalc (amount rateSource rateTarget : ℚ) : Option ℚ :=
  if rateSource = 0 then none
  else some (amount / rateSource * rateTarget)

/-! ### Transfer saga (src/cogs/transfer.py)

The remote ledger is modelled as a map from (guild id, user id) to an
account with a cash and a bank wallet.  Each call the saga issues through
the UnbelievaBoat cog is recorded in a call log, and the outcome of each
remote round-trip is supplied by a `CallPlan` (true = the underlying HTTP
requests succeeded, false = the call returned None for a remote reason).
A modify call with a successful round-trip can still fail through its own
negative-result check, exactly as in modify_user_balance. -/

/-- One of the two balance buckets tracked per user per economy. -/
inductive Wallet where
  | cash
  | bank
deriving Repr, DecidableEq

/-- One remote account: the cash and bank wallets of a user in a guild. -/
structure Account where
  cash : ℚ
  bank : ℚ
deriving Repr, DecidableEq

/-- The value of the given wallet of an account. -/
def Account.get : Account → Wallet → ℚ
  | a, .cash => a.cash
  | a, .bank => a.bank

/-- The remote ledger: every (guild id, user id) pair has an account. -/
structure Ledger where
  bal : Nat → Nat → Account

/-- Pointwise update of the ledger at one (guild, user) key. -/
def Ledger.update (L : Ledger) (g u : Nat) (a : Account) : Ledger :=
  ⟨fun g' u' => if g' = g ∧ u' = u then a else L.bal g' u'⟩

/-- One ledger-client call issued by the transfer flow: the balance read
of user_has_sufficient_balance, or a modify_user_balance call with its
optional cash and bank deltas and its audit reason. -/
inductive SagaCall where
  | getBalance (guild user : Nat)
  | modify (guild user : Nat) (cash_change bank_change : Option ℚ) (reason : String)
deriving Repr, DecidableEq

/-- The (cash_change, bank_change) argument pair the transfer code passes
to modify_user_balance for the chosen wallet: the cash branch passes
cash_change only, the bank branch bank_change only. -/
def walletDelta (w : Wallet) (x : ℚ) : Option ℚ × Option ℚ :=
  match w with
  | .cash => (some x, none)
  | .bank => (none, some x)

/-- Semantics of one modify_user_balance call against the ledger.  `ok`
says whether the remote round-trips of the call succeeded; on success the
call reads the current account, applies the deltas, fails with no write
if a resulting wallet is negative, and otherwise writes and returns the
new account.  A failed call leaves the ledger unchanged. -/
def applyModify (L : Ledger) (g u : Nat) (cash_change bank_change : Option ℚ)
    (ok : Bool) : Option Account × Ledger :=
  if ok then
    let current := L.bal g u
    let nc := current.cash + cash_change.getD 0
    let nb := current.bank + bank_change.getD 0
    if nc < 0 ∨ nb < 0 then (none, L)
    else (some ⟨nc, nb⟩, L.update g u ⟨nc, nb⟩)
  else (none, L)

/-- Remote outcomes for the ledger calls of one confirmed transfer: the
balance re-check read, the debit, the credit, and (if reached) the
compensating rollback. -/
structure CallPlan where
  checkRead : Bool
  debitOk : Bool
  creditOk : Bool
  rollbackOk : Bool
deriving Repr, DecidableEq

/-- The outcome `ConfirmTransferView.confirm` reports to the user. -/
inductive SagaOutcome where
  | insufficientBalance
  | debitFailed
  | rolledBack
  | complete
deriving Repr, DecidableEq

/-- A row of the transfers table as written by `Database.log_transfer`
for a completed transfer (currency-name columns omitted). -/
structure TransferRecord where
  user_id : Nat
  from_guild_id : Nat
  to_guild_id : Nat
  amount_source : ℚ
  amount_target : ℚ
  wallet : Wallet
  exchange_rate : ℚ
deriving Repr, DecidableEq

/-- An economy row as the transfer command reads it from the database. -/
structure Economy where
  guild_id : Nat
  guild_name : String
  currency_name : String
  currency_symbol : String
  rate_usd : ℚ
  status : EconStatus
deriving Repr, DecidableEq

/-- Result of one run of `ConfirmTransferView.confirm`: the reported
outcome, the final remote ledger, the transfer records appended, and the
ledger-client calls issued. -/
structure SagaResult where
  outcome : SagaOutcome
  ledger : Ledger
  records : List TransferRecord
  calls : List SagaCall

/-- Embedding of `ConfirmTransferView.confirm` (src/cogs/transfer.py,
lines 252-403).  Faithful to the source: re-check the balance (a failed
read counts as insufficient); debit the source wallet, aborting on
failure; credit the target wallet; on credit failure issue one
compensating modify of +amount on the source wallet with reason
"Transfer rollback" and report the rolled-back outcome without consulting
the result of that compensating call; on credit success append one
transfer record with exchange_rate = target rate / source rate and report
completion. -/
def confirmTransfer (L : Ledger) (plan : CallPlan) (src tgt : Economy)
    (user : Nat) (amount targetAmount : ℚ) (w : Wallet) : SagaResult :=
  let checkCall := SagaCall.getBalance src.guild_id user
  if plan.checkRead ∧ amount ≤ (L.bal src.guild_id user).get w then
    let dd := walletDelta w (-amount)
    let debitCall := SagaCall.modify src.guild_id user dd.1 dd.2
      ("Transfer to " ++ tgt.guild_name)
    let debitStep := applyModify L src.guild_id user dd.1 dd.2 plan.debitOk
    match debitStep.1 with
    | none => ⟨.debitFailed, debitStep.2, [], [checkCall, debitCall]⟩
    | some _ =>
      let cd := walletDelta w targetAmount
      let creditCall := SagaCall.modify tgt.guild_id user cd.1 cd.2
        ("Transfer from " ++ src.guild_name)
      let creditStep := applyModify debitStep.2 tgt.guild_id user cd.1 cd.2 plan.creditOk
      match creditStep.1 with
      | none =>
        let rd := walletDelta w amount
        let rollbackCall := SagaCall.modify src.guild_id user rd.1 rd.2
          "Transfer rollback"
        let rollbackStep := applyModify creditStep.2 src.guild_id user rd.1 rd.2
          plan.rollbackOk
        ⟨.rolledBack, rollbackStep.2, [],
          [checkCall, debitCall, creditCall, rollbackCall]⟩
      | some _ =>
        ⟨.complete, creditStep.2,
          [⟨user, src.guild_id, tgt.guild_id, amount, targetAmount, w,
            tgt.rate_usd / src.rate_usd⟩],
          [checkCall, debitCall, creditCall]⟩
  else
    ⟨.insufficientBalance, L, [], [checkCall]⟩

/-! ### Transfer command: validation stage (src/cogs/transfer.py, lines 32-173) -/

/-- The bot configuration fields the transfer command reads. -/
structure Config where
  min_transfer_amount : ℚ
  max_transfer_amount : ℚ
deriving Repr, DecidableEq

/-- The specific validation rejections of the transfer command, in the
order the source checks them. -/
inductive ValidationFailure where
  | invalidWalletType
  | amountOutOfRange
  | sourceNotFound
  | targetNotFound
  | sameServer
deriving Repr, DecidableEq

/-- The payload handed to ConfirmTransferView when validation, the
balance check and the conversion all pass. -/
structure PendingTransfer where
  src : Economy
  tgt : Economy
  amount : ℚ
  targetAmount : ℚ
  wallet : Wallet
deriving Repr, DecidableEq

/-- What the transfer command ends with: a validation rejection, an
insufficient-balance rejection, a ZeroDivisionError crash from the inline
conversion, or the confirmation prompt carrying the pending transfer. -/
inductive CommandOutcome where
  | rejected (e : ValidationFailure)
  | insufficientBalance
  | conversionError
  | confirmationShown (p : PendingTransfer)
deriving Repr, DecidableEq

/-- Result of one run of the transfer command: its outcome and the
ledger-client calls it issued. -/
structure CommandResult where
  outcome : CommandOutcome
  calls : List SagaCall
deriving Repr, DecidableEq

/-- ASCII lowercase of one character, as Python str.lower acts on the
ASCII names involved. -/
def lowerChar (c : Char) : Char :=
  if 65 ≤ c.toNat ∧ c.toNat ≤ 90 then Char.ofNat (c.toNat + 32) else c

/-- ASCII lowercase of a string (Python str.lower on ASCII input). -/
def pyLower (s : String) : String := String.mk (s.data.map lowerChar)

/-- The wallet_type argument check (lines 54-60): lowercase the argument
and require membership in the two-element list of the strings cash and bank. -/
def parseWallet (s : String) : Option Wallet :=
  if pyLower s = "cash" then some Wallet.cash
  else if pyLower s = "bank" then some Wallet.bank
  else none

/-- The source/target lookup loop (lines 77-84): walk the approved list
and keep the last economy whose name matches case-insensitively. -/
def findEconomy (econs : List Economy) (name : String) : Option Economy :=
  econs.foldl
    (fun acc e => if pyLower e.guild_name = pyLower name then some e else acc)
    none

/-- Embedding of `TransferCommands.transfer` (src/cogs/transfer.py, lines
32-173).  `db` is the full economies table (the command queries only the
approved rows); `L` is the remote ledger and `checkRead` whether the
balance read of user_has_sufficient_balance succeeds.  Faithful order of
the source: wallet-type check, amount bounds, source lookup, target
lookup, same-server check — none of which issues a ledger call — then the
balance check (one getBalance call), then the inline conversion, then the
confirmation prompt. -/
def transferCommand (cfg : Config) (db : List Economy)
    (targetServer sourceServer : String) (amount : ℚ) (walletArg : String)
    (L : Ledger) (checkRead : Bool) (user : Nat) : CommandResult :=
  match parseWallet walletArg with
  | none => ⟨.rejected .invalidWalletType, []⟩
  | some w =>
    if amount < cfg.min_transfer_amount ∨ cfg.max_transfer_amount < amount then
      ⟨.rejected .amountOutOfRange, []⟩
    else
      let approved := db.filter (fun e => e.status = EconStatus.approved)
      match findEconomy approved sourceServer with
      | none => ⟨.rejected .sourceNotFound, []⟩
      | some src =>
        match findEconomy approved targetServer with
        | none => ⟨.rejected .targetNotFound, []⟩
        | some tgt =>
          if src.guild_id = tgt.guild_id then
            ⟨.rejected .sameServer, []⟩
          else
            let checkCall := SagaCall.getBalance src.guild_id user
            if checkRead ∧ amount ≤ (L.bal src.guild_id user).get w then
              match convertCalc amount src.rate_usd tgt.rate_usd with
              | none => ⟨.conversionError, [checkCall]⟩
              | some targetAmount =>
                ⟨.confirmationShown ⟨src, tgt, amount, targetAmount, w⟩, [checkCall]⟩
            else
              ⟨.insufficientBalance, [checkCall]⟩

/-! ### Helper lemmas -/

theorem Ledger.update_self (L : Ledger) (g u : Nat) (a : Account) :
    (L.update g u a).bal g u = a := by
  simp [Ledger.update]

theorem Ledger.update_other (L : Ledger) (g u g' u' : Nat) (a : Account)
    (h : ¬(g' = g ∧ u' = u)) : (L.update g u a).bal g' u' = L.bal g' u' := by
  simp only [Ledger.update, if_neg h]

theorem Account.eq_of_parts (a b : Account) (h1 : a.cash = b.cash)
    (h2 : a.bank = b.bank) : a = b := by
  cases a; cases b; simp_all

theorem applyModify_true_of_nonneg (L : Ledger) (g u : Nat) (cc bc : Option ℚ)
    (h1 : 0 ≤ (L.bal g u).cash + cc.getD 0) (h2 : 0 ≤ (L.bal g u).bank + bc.getD 0) :
    applyModify L g u cc bc true =
      (some ⟨(L.bal g u).cash + cc.getD 0, (L.bal g u).bank + bc.getD 0⟩,
       L.update g u ⟨(L.bal g u).cash + cc.getD 0, (L.bal g u).bank + bc.getD 0⟩) := by
  have hcond :
      ¬((L.bal g u).cash + cc.getD 0 < 0 ∨ (L.bal g u).bank + bc.getD 0 < 0) := by
    push_neg
    exact ⟨h1, h2⟩
  simp [applyModify, hcond]

theorem applyModify_some (L : Ledger) (g u : Nat) (cc bc : Option ℚ) (ok : Bool)
    (a : Account) (h : (applyModify L g u cc bc ok).1 = some a) :
    a = ⟨(L.bal g u).cash + cc.getD 0, (L.bal g u).bank + bc.getD 0⟩ ∧
    0 ≤ (L.bal g u).cash + cc.getD 0 ∧ 0 ≤ (L.bal g u).bank + bc.getD 0 ∧
    (applyModify L g u cc bc ok).2 = L.update g u a := by
  cases ok with
  | false => simp [applyModify] at h
  | true =>
    by_cases hneg :
        (L.bal g u).cash + cc.getD 0 < 0 ∨ (L.bal g u).bank + bc.getD 0 < 0
    · simp [applyModify, hneg] at h
    · push_neg at hneg
      rw [applyModify_true_of_nonneg L g u cc bc hneg.1 hneg.2] at h ⊢
      simp only [Option.some.injEq] at h
      subst h
      exact ⟨rfl, hneg.1, hneg.2, rfl⟩

theorem applyModify_none (L : Ledger) (g u : Nat) (cc bc : Option ℚ) (ok : Bool)
    (h : (applyModify L g u cc bc ok).1 = none) :
    (applyModify L g u cc bc ok).2 = L := by
  cases ok with
  | false => simp [applyModify]
  | true =>
    by_cases hneg :
        (L.bal g u).cash + cc.getD 0 < 0 ∨ (L.bal g u).bank + bc.getD 0 < 0
    · simp [applyModify, hneg]
    · push_neg at hneg
      rw [applyModify_true_of_nonneg L g u cc bc hneg.1 hneg.2] at h
      simp at h

/-! ### Claim theorems -/

/-- C2: the retry on a throttling response is not bounded by any retry
count: however many consecutive 429 responses the remote returns, the
recursive `_make_request` call is still retrying and has returned nothing
— in particular it never surfaces a terminal error for exhausted retries. -/
theorem makeRequest_retries_forever (n : Nat) :
    makeRequest (List.replicate n (ApiResponse.throttled 60) : List (ApiResponse UserBalance))
      = RequestOutcome.stillRetrying := by
  induction n with
  | zero => rfl
  | succ k ih => rw [List.replicate_succ]; exact ih

/-- C8 counterexample: a negative source rate is not rejected: the
conversion computes 100 / (-10) * 5 = -50 and returns it. -/
theorem convertCalc_negative_rate_counterexample :
    (-10 : ℚ) ≤ 0 ∧ convertCalc 100 (-10) 5 = some (-50) := by
  constructor
  · norm_num
  · norm_num [convertCalc]

/-- C8 (amended): the transfer command performs no defensive rejection of
a nonpositive source rate: for every negative rateSource the conversion
returns amount / rateSource * rateTarget, and only rateSource = 0 aborts,
through the uncaught ZeroDivisionError of the inline division. -/
theorem convertCalc_no_defensive_check (amount rateSource rateTarget : ℚ)
    (hneg : rateSource < 0) :
    convertCalc amount rateSource rateTarget
      = some (amount / rateSource * rateTarget) ∧
    convertCalc amount 0 rateTarget = none := by
  refine ⟨?_, by simp [convertCalc]⟩
  simp [convertCalc, ne_of_lt hneg]

/-- C8 witness: the amended statement evaluated at amount 100, source
rate -10, target rate 5. -/
theorem convertCalc_no_defensive_check_witness :
    convertCalc 100 (-10) 5 = some (100 / (-10) * 5) ∧
    convertCalc 100 0 5 = none :=
  convertCalc_no_defensive_check 100 (-10) 5 (by norm_num)

/-- C9 counterexample: with owner id 1 and an empty officer set, the
owner passes the removal guard `is_officer_or_owner` but fails the
approval guard, refuting the claim that the check guarding registry
transition authorizes the owner. -/
theorem approvalGuard_owner_counterexample :
    is_officer_or_owner 1 [] 1 = true ∧ approvalGuard [] 1 = false := by
  decide

/-- C9 (amended): the removal guard succeeds exactly for the designated
owner or a member of the officer set, while the guard on economy approval
and rejection checks only officer-set membership, so the owner passes it
only if also stored in the officer set. -/
theorem authorization_guards_spec (ownerUserId : Nat) (officers : List Nat) (uid : Nat) :
    (is_officer_or_owner ownerUserId officers uid = true ↔
      uid = ownerUserId ∨ uid ∈ officers) ∧
    (approvalGuard officers uid = true ↔ uid ∈ officers) := by
  constructor
  · by_cases h : uid = ownerUserId <;>
      simp [is_officer_or_owner, is_officer, h]
  · simp [approvalGuard, is_officer]

/-- C7 counterexample: on a row whose status is already approved, a
further approval call succeeds (returns true) instead of failing, and an
approved row can even be moved to rejected, refuting the pending-only
transition guard. -/
theorem update_economy_status_counterexample :
    (update_economy_status ⟨.approved, some 5, true⟩ .approved (some 9)).1 = true ∧
    (update_economy_status ⟨.approved, some 5, true⟩ .approved (some 9)).2.status = .approved ∧
    (update_economy_status ⟨.approved, some 5, true⟩ .rejected none).2.status = .rejected := by
  decide

/-- C7 (amended): update_economy_status never consults the current
status: for every row and new status it reports success and writes the
new status, so of two successive approval calls the second also succeeds
while the status remains approved, and a rejection leaves the recorded
approver untouched. -/
theorem update_economy_status_unguarded (row : EconomyRow) (ns : EconStatus)
    (actor : Option Nat) :
    (update_economy_status row ns actor).1 = true ∧
    (update_economy_status row ns actor).2.status = ns ∧
    (update_economy_status (update_economy_status row .approved actor).2 .approved actor).1
      = true ∧
    (update_economy_status (update_economy_status row .approved actor).2 .approved actor).2.status
      = .approved ∧
    (update_economy_status row .rejected actor).2.approved_by = row.approved_by := by
  by_cases h : truthy actor = true <;>
    cases ns <;> simp [update_economy_status, h]

/-- C4: modify_user_balance reads the current balance and returns an
error when the read fails; otherwise it adds each supplied delta to the
read value, fails with no write when a resulting wallet is negative, and
otherwise writes exactly the computed values through set_user_balance and
returns its snapshot. -/
theorem modify_user_balance_spec (getResult : Option UserBalance)
    (setBalance : ℚ → ℚ → Option UserBalance) (cash_change bank_change : Option ℚ) :
    (getResult = none →
      modify_user_balance getResult setBalance cash_change bank_change = (none, [])) ∧
    (∀ current, getResult = some current →
      ((current.cash + cash_change.getD 0 < 0 ∨ current.bank + bank_change.getD 0 < 0) →
        modify_user_balance getResult setBalance cash_change bank_change = (none, [])) ∧
      (0 ≤ current.cash + cash_change.getD 0 → 0 ≤ current.bank + bank_change.getD 0 →
        modify_user_balance getResult setBalance cash_change bank_change =
          (setBalance (current.cash + cash_change.getD 0) (current.bank + bank_change.getD 0),
           [(current.cash + cash_change.getD 0, current.bank + bank_change.getD 0)]))) := by
  constructor
  · rintro rfl; rfl
  · rintro current rfl
    constructor
    · intro hneg
      cases cash_change <;> cases bank_change <;>
        simp_all [modify_user_balance]
    · intro hc hb
      cases cash_change <;> cases bank_change <;>
        simp_all [modify_user_balance, not_lt.mpr hc, not_lt.mpr hb, not_lt]

/-- C4 witness: a read of (cash 10, bank 20) with a cash delta of +5 and
no bank delta writes exactly (15, 20) and returns the updated snapshot. -/
theorem modify_user_balance_spec_witness :
    modify_user_balance (some ⟨10, 20, 30⟩) (fun c b => some ⟨c, b, c + b⟩)
      (some 5) none = (some ⟨15, 20, 35⟩, [(15, 20)]) := by
  have h := ((modify_user_balance_spec (some ⟨10, 20, 30⟩)
      (fun c b => some ⟨c, b, c + b⟩) (some 5) none).2 ⟨10, 20, 30⟩ rfl).2
      (by norm_num) (by norm_num)
  norm_num at h
  exact h

/-- C10: when exactly one delta is supplied and the negative-balance
check passes, the wallet without a delta is written back with the value
just read, so that wallet is unchanged in the resulting snapshot. -/
theorem modify_single_delta_preserves_other_wallet (st : UserBalance) (c b : ℚ) :
    (0 ≤ st.cash + c → 0 ≤ st.bank →
      (modifyAgainstLedger st (some c) none).2 = [(st.cash + c, st.bank)] ∧
      (modifyAgainstLedger st (some c) none).1
        = some ⟨st.cash + c, st.bank, (st.cash + c) + st.bank⟩) ∧
    (0 ≤ st.bank + b → 0 ≤ st.cash →
      (modifyAgainstLedger st none (some b)).2 = [(st.cash, st.bank + b)] ∧
      (modifyAgainstLedger st none (some b)).1
        = some ⟨st.cash, st.bank + b, st.cash + (st.bank + b)⟩) := by
  constructor
  · intro hc hb
    simp [modifyAgainstLedger, modify_user_balance, patchSnapshot,
      not_lt.mpr hc, not_lt.mpr hb, not_lt]
  · intro hb hc
    simp [modifyAgainstLedger, modify_user_balance, patchSnapshot,
      not_lt.mpr hc, not_lt.mpr hb, not_lt]

/-- C10 witness: reading (cash 10, bank 20), a cash-only delta of +5
writes back bank 20 unchanged, and a bank-only delta of +7 writes back
cash 10 unchanged. -/
theorem modify_single_delta_preserves_other_wallet_witness :
    ((modifyAgainstLedger ⟨10, 20, 30⟩ (some 5) none).2 = [(15, 20)] ∧
      (modifyAgainstLedger ⟨10, 20, 30⟩ (some 5) none).1 = some ⟨15, 20, 35⟩) ∧
    ((modifyAgainstLedger ⟨10, 20, 30⟩ none (some 7)).2 = [(10, 27)] ∧
      (modifyAgainstLedger ⟨10, 20, 30⟩ none (some 7)).1 = some ⟨10, 27, 37⟩) := by
  have h := modify_single_delta_preserves_other_wallet ⟨10, 20, 30⟩ 5 7
  have h1 := h.1 (by norm_num) (by norm_num)
  have h2 := h.2 (by norm_num) (by norm_num)
  norm_num at h1 h2
  exact ⟨h1, h2⟩

/-- C5: every Validate-stage rejection of the transfer command — invalid
wallet type, amount out of bounds, unknown or unapproved source or
target, or identical source and target — issues zero ledger-client
calls. -/
theorem transferCommand_validation_no_calls (cfg : Config) (db : List Economy)
    (targetServer sourceServer : String) (amount : ℚ) (walletArg : String)
    (L : Ledger) (checkRead : Bool) (user : Nat) (e : ValidationFailure)
    (h : (transferCommand cfg db targetServer sourceServer amount walletArg L checkRead user).outcome
          = CommandOutcome.rejected e) :
    (transferCommand cfg db targetServer sourceServer amount walletArg L checkRead user).calls
      = [] := by
  revert h
  unfold transferCommand
  dsimp only
  repeat' split
  all_goals simp

/-- C5 witness: the Scenario C instance — a request of 5 units against a
configured minimum of 10 is rejected for its amount, with an empty call
log. -/
theorem transferCommand_validation_no_calls_witness :
    (transferCommand ⟨10, 1000000⟩ [] "B" "A" 5 "cash" ⟨fun _ _ => ⟨0, 0⟩⟩ true 7).outcome
      = CommandOutcome.rejected .amountOutOfRange ∧
    (transferCommand ⟨10, 1000000⟩ [] "B" "A" 5 "cash" ⟨fun _ _ => ⟨0, 0⟩⟩ true 7).calls
      = [] := by
  constructor
  · decide
  · exact transferCommand_validation_no_calls ⟨10, 1000000⟩ [] "B" "A" 5 "cash"
      ⟨fun _ _ => ⟨0, 0⟩⟩ true 7 .amountOutOfRange (by decide)

/-- C1 counterexample: when the compensating call itself fails (debit
succeeds, credit fails, rollback round-trip fails), the saga still
reports the rolled-back outcome and has issued the compensating call,
but the source account ends at cash 60, not its pre-transfer 100 —
refuting the claim that after any failed credit the source balance
equals its pre-transfer value. -/
theorem rollback_restores_source_counterexample :
    (confirmTransfer (Ledger.mk fun _ _ => ⟨100, 50⟩) ⟨true, true, false, false⟩
        ⟨1, "A", "gold", "g", 10, .approved⟩ ⟨2, "B", "silver", "s", 5, .approved⟩
        7 40 20 .cash).outcome = SagaOutcome.rolledBack ∧
    SagaCall.modify 1 7 (some 40) none "Transfer rollback"
      ∈ (confirmTransfer (Ledger.mk fun _ _ => ⟨100, 50⟩) ⟨true, true, false, false⟩
          ⟨1, "A", "gold", "g", 10, .approved⟩ ⟨2, "B", "silver", "s", 5, .approved⟩
          7 40 20 .cash).calls ∧
    ((confirmTransfer (Ledger.mk fun _ _ => ⟨100, 50⟩) ⟨true, true, false, false⟩
        ⟨1, "A", "gold", "g", 10, .approved⟩ ⟨2, "B", "silver", "s", 5, .approved⟩
        7 40 20 .cash).ledger.bal 1 7).cash = 60 ∧
    ((Ledger.mk fun _ _ => (⟨100, 50⟩ : Account)).bal 1 7).cash = 100 := by
  refine ⟨?_, ?_, ?_, rfl⟩ <;>
    norm_num [confirmTransfer, applyModify, walletDelta, Account.get, Ledger.update]

/-- C1 (amended): if the saga reports the rolled-back outcome — i.e. the
credit failed after a successful debit — then the compensating modify of
+amount on the chosen wallet with reason "Transfer rollback" was issued,
no transfer record is appended and the outcome is not Complete; and
provided the remote round-trips of the compensating call succeed (and the
amount is nonnegative), the source account ends at exactly its
pre-transfer value. -/
theorem rollback_restores_source (L : Ledger) (plan : CallPlan) (src tgt : Economy)
    (user : Nat) (amount targetAmount : ℚ) (w : Wallet)
    (hout : (confirmTransfer L plan src tgt user amount targetAmount w).outcome
      = SagaOutcome.rolledBack)
    (hrb : plan.rollbackOk = true) (hamt : 0 ≤ amount) :
    SagaCall.modify src.guild_id user (walletDelta w amount).1 (walletDelta w amount).2
        "Transfer rollback"
      ∈ (confirmTransfer L plan src tgt user amount targetAmount w).calls ∧
    (confirmTransfer L plan src tgt user amount targetAmount w).ledger.bal src.guild_id user
      = L.bal src.guild_id user ∧
    (confirmTransfer L plan src tgt user amount targetAmount w).records = [] ∧
    (confirmTransfer L plan src tgt user amount targetAmount w).outcome
      ≠ SagaOutcome.complete := by
  revert hout
  unfold confirmTransfer
  dsimp only
  split
  case isFalse => intro hout; simp at hout
  case isTrue hbal =>
    split
    case h_1 heqD => intro hout; simp at hout
    case h_2 a1 heqD =>
      split
      case h_2 a2 heqC => intro hout; simp at hout
      case h_1 heqC =>
        intro hout
        obtain ⟨ha1, hd1, hd2, hL1⟩ := applyModify_some _ _ _ _ _ _ _ heqD
        have hL2 := applyModify_none _ _ _ _ _ _ heqC
        rw [hL2, hL1, hrb]
        refine ⟨by simp, ?_, rfl, by simp⟩
        have hself : (L.update src.guild_id user a1).bal src.guild_id user = a1 :=
          Ledger.update_self L src.guild_id user a1
        cases w with
        | cash =>
          simp only [walletDelta, Option.getD_some, Option.getD_none] at ha1 hd1 hd2 ⊢
          rw [applyModify_true_of_nonneg (L.update src.guild_id user a1) src.guild_id user
              (some amount) none
              (by simp only [Option.getD_some]; rw [hself, ha1]; dsimp only; linarith)
              (by simp only [Option.getD_none]; rw [hself, ha1]; dsimp only; linarith)]
          dsimp only
          rw [Ledger.update_self]
          refine Account.eq_of_parts _ _ ?_ ?_ <;>
            (dsimp only; rw [hself, ha1];
             dsimp only [Option.getD_some, Option.getD_none]; ring)
        | bank =>
          simp only [walletDelta, Option.getD_some, Option.getD_none] at ha1 hd1 hd2 ⊢
          rw [applyModify_true_of_nonneg (L.update src.guild_id user a1) src.guild_id user
              none (some amount)
              (by simp only [Option.getD_none]; rw [hself, ha1]; dsimp only; linarith)
              (by simp only [Option.getD_some]; rw [hself, ha1]; dsimp only; linarith)]
          dsimp only
          rw [Ledger.update_self]
          refine Account.eq_of_parts _ _ ?_ ?_ <;>
            (dsimp only; rw [hself, ha1];
             dsimp only [Option.getD_some, Option.getD_none]; ring)

/-- C1 witness: a concrete rolled-back run (cash 100 before, debit of 40
succeeds, credit fails, compensation succeeds) ends with the source
account restored to (100, 50), the compensating call issued, no record
appended and an outcome other than Complete. -/
theorem rollback_restores_source_witness :
    SagaCall.modify 1 7 (some 40) none "Transfer rollback"
      ∈ (confirmTransfer (Ledger.mk fun _ _ => ⟨100, 50⟩) ⟨true, true, false, true⟩
          ⟨1, "A", "gold", "g", 10, .approved⟩ ⟨2, "B", "silver", "s", 5, .approved⟩
          7 40 20 .cash).calls ∧
    (confirmTransfer (Ledger.mk fun _ _ => ⟨100, 50⟩) ⟨true, true, false, true⟩
        ⟨1, "A", "gold", "g", 10, .approved⟩ ⟨2, "B", "silver", "s", 5, .approved⟩
        7 40 20 .cash).ledger.bal 1 7
      = (Ledger.mk fun _ _ => (⟨100, 50⟩ : Account)).bal 1 7 ∧
    (confirmTransfer (Ledger.mk fun _ _ => ⟨100, 50⟩) ⟨true, true, false, true⟩
        ⟨1, "A", "gold", "g", 10, .approved⟩ ⟨2, "B", "silver", "s", 5, .approved⟩
        7 40 20 .cash).records = [] ∧
    (confirmTransfer (Ledger.mk fun _ _ => ⟨100, 50⟩) ⟨true, true, false, true⟩
        ⟨1, "A", "gold", "g", 10, .approved⟩ ⟨2, "B", "silver", "s", 5, .approved⟩
        7 40 20 .cash).outcome ≠ SagaOutcome.complete :=
  rollback_restores_source (Ledger.mk fun _ _ => ⟨100, 50⟩) ⟨true, true, false, true⟩
    ⟨1, "A", "gold", "g", 10, .approved⟩ ⟨2, "B", "silver", "s", 5, .approved⟩
    7 40 20 .cash
    (by norm_num [confirmTransfer, applyModify, walletDelta, Account.get, Ledger.update])
    rfl (by norm_num)

/-- C3: evaluation at the failing input — debit succeeds, credit fails,
and the compensating call also fails.  The saga reports exactly the same
rolled-back outcome as the run in which compensation succeeds, issues the
compensating call exactly once (no retry), and leaves the source account
debited at 60: no distinct escalated compensation-failure outcome exists
in the result the caller sees. -/
theorem compensation_failure_not_escalated :
    (confirmTransfer (Ledger.mk fun _ _ => ⟨100, 50⟩) ⟨true, true, false, false⟩
        ⟨1, "A", "gold", "g", 10, .approved⟩ ⟨2, "B", "silver", "s", 5, .approved⟩
        7 40 20 .cash).outcome = SagaOutcome.rolledBack ∧
    (confirmTransfer (Ledger.mk fun _ _ => ⟨100, 50⟩) ⟨true, true, false, true⟩
        ⟨1, "A", "gold", "g", 10, .approved⟩ ⟨2, "B", "silver", "s", 5, .approved⟩
        7 40 20 .cash).outcome = SagaOutcome.rolledBack ∧
    ((confirmTransfer (Ledger.mk fun _ _ => ⟨100, 50⟩) ⟨true, true, false, false⟩
        ⟨1, "A", "gold", "g", 10, .approved⟩ ⟨2, "B", "silver", "s", 5, .approved⟩
        7 40 20 .cash).ledger.bal 1 7).cash = 60 ∧
    ((confirmTransfer (Ledger.mk fun _ _ => ⟨100, 50⟩) ⟨true, true, false, true⟩
        ⟨1, "A", "gold", "g", 10, .approved⟩ ⟨2, "B", "silver", "s", 5, .approved⟩
        7 40 20 .cash).ledger.bal 1 7).cash = 100 ∧
    (confirmTransfer (Ledger.mk fun _ _ => ⟨100, 50⟩) ⟨true, true, false, false⟩
        ⟨1, "A", "gold", "g", 10, .approved⟩ ⟨2, "B", "silver", "s", 5, .approved⟩
        7 40 20 .cash).calls.count
      (SagaCall.modify 1 7 (some 40) none "Transfer rollback") = 1 := by
  refine ⟨?_, ?_, ?_, ?_, ?_⟩ <;>
    norm_num [confirmTransfer, applyModify, walletDelta, Account.get, Ledger.update,
      List.count_cons]
  all_goals decide

/-- C6: for every transfer that reaches the confirmation prompt and
whose confirmed run completes, the credited target amount is exactly
amount / rateSource * rateTarget, the appended record carries
rate_used = rateTarget / rateSource, the source wallet decreases by
exactly the amount and the target wallet increases by exactly the
credited amount. -/
theorem transfer_conversion_and_record (cfg : Config) (db : List Economy)
    (targetServer sourceServer : String) (amount : ℚ) (walletArg : String)
    (L : Ledger) (checkRead : Bool) (user : Nat) (plan : CallPlan) (p : PendingTransfer)
    (hcmd : (transferCommand cfg db targetServer sourceServer amount walletArg L checkRead user).outcome
      = CommandOutcome.confirmationShown p)
    (hrun : (confirmTransfer L plan p.src p.tgt user p.amount p.targetAmount p.wallet).outcome
      = SagaOutcome.complete) :
    p.amount = amount ∧
    p.targetAmount = amount / p.src.rate_usd * p.tgt.rate_usd ∧
    (confirmTransfer L plan p.src p.tgt user p.amount p.targetAmount p.wallet).records
      = [⟨user, p.src.guild_id, p.tgt.guild_id, p.amount, p.targetAmount, p.wallet,
          p.tgt.rate_usd / p.src.rate_usd⟩] ∧
    ((confirmTransfer L plan p.src p.tgt user p.amount p.targetAmount p.wallet).ledger.bal
        p.src.guild_id user).get p.wallet
      = (L.bal p.src.guild_id user).get p.wallet - amount ∧
    ((confirmTransfer L plan p.src p.tgt user p.amount p.targetAmount p.wallet).ledger.bal
        p.tgt.guild_id user).get p.wallet
      = (L.bal p.tgt.guild_id user).get p.wallet + p.targetAmount := by
  revert hcmd
  unfold transferCommand
  dsimp only
  split
  case h_1 => intro hp; simp at hp
  case h_2 w hw =>
    split
    case isTrue => intro hp; simp at hp
    case isFalse =>
      split
      case h_1 => intro hp; simp at hp
      case h_2 src hsrc =>
        split
        case h_1 => intro hp; simp at hp
        case h_2 tgt htgt =>
          split
          case isTrue => intro hp; simp at hp
          case isFalse hne =>
            split
            case isFalse => intro hp; simp at hp
            case isTrue hbal =>
              split
              case h_1 => intro hp; simp at hp
              case h_2 ta heqc =>
                intro hp
                have hta : ta = amount / src.rate_usd * tgt.rate_usd := by
                  revert heqc
                  unfold convertCalc
                  split
                  · intro h; simp at h
                  · intro h; injection h with h; exact h.symm
                injection hp with hp
                subst hp
                dsimp only at hrun ⊢
                revert hrun
                unfold confirmTransfer
                dsimp only
                split
                case isFalse => intro hout; simp at hout
                case isTrue hbal2 =>
                  split
                  case h_1 => intro hout; simp at hout
                  case h_2 a1 heqD =>
                    split
                    case h_1 => intro hout; simp at hout
                    case h_2 a2 heqC =>
                      intro _
                      obtain ⟨ha1, hd1c, hd1b, hL1⟩ := applyModify_some _ _ _ _ _ _ _ heqD
                      obtain ⟨ha2, hd2c, hd2b, hL2⟩ := applyModify_some _ _ _ _ _ _ _ heqC
                      rw [hL1] at ha2
                      rw [Ledger.update_other L src.guild_id user tgt.guild_id user a1
                        (fun hc => hne hc.1.symm)] at ha2
                      refine ⟨rfl, hta, rfl, ?_, ?_⟩
                      · dsimp only
                        rw [hL2, hL1,
                          Ledger.update_other (L.update src.guild_id user a1) tgt.guild_id user
                            src.guild_id user a2 (fun hc => hne hc.1),
                          Ledger.update_self]
                        subst ha1
                        cases w <;> simp [walletDelta, Account.get] <;> ring
                      · dsimp only
                        rw [hL2, Ledger.update_self]
                        subst ha2
                        cases w <;> simp [walletDelta, Account.get]

/-- C6 witness: Scenario A — economy A with rate 10, economy B with rate
5, a confirmed transfer of 100 cash units from a source balance of 150:
the run logs one record with rate_used = 1/2, the source ends at cash 50
(a decrease of exactly 100) and the target receives exactly 50. -/
theorem transfer_conversion_and_record_witness :
    (confirmTransfer (Ledger.mk fun g _ => if g = 1 then ⟨150, 0⟩ else ⟨0, 0⟩) ⟨true, true, true, true⟩
        ⟨1, "A", "gold", "g", 10, .approved⟩ ⟨2, "B", "silver", "s", 5, .approved⟩
        7 100 (100 / 10 * 5) .cash).records
      = [⟨7, 1, 2, 100, 50, .cash, 1/2⟩] ∧
    ((confirmTransfer (Ledger.mk fun g _ => if g = 1 then ⟨150, 0⟩ else ⟨0, 0⟩) ⟨true, true, true, true⟩
        ⟨1, "A", "gold", "g", 10, .approved⟩ ⟨2, "B", "silver", "s", 5, .approved⟩
        7 100 (100 / 10 * 5) .cash).ledger.bal 1 7).get .cash = 50 ∧
    ((confirmTransfer (Ledger.mk fun g _ => if g = 1 then ⟨150, 0⟩ else ⟨0, 0⟩) ⟨true, true, true, true⟩
        ⟨1, "A", "gold", "g", 10, .approved⟩ ⟨2, "B", "silver", "s", 5, .approved⟩
        7 100 (100 / 10 * 5) .cash).ledger.bal 2 7).get .cash = 50 := by
  have h := transfer_conversion_and_record ⟨1, 1000000⟩
      [⟨1, "A", "gold", "g", 10, .approved⟩, ⟨2, "B", "silver", "s", 5, .approved⟩]
      "B" "A" 100 "cash" (Ledger.mk fun g _ => if g = 1 then ⟨150, 0⟩ else ⟨0, 0⟩) true 7 ⟨true, true, true, true⟩
      ⟨⟨1, "A", "gold", "g", 10, .approved⟩, ⟨2, "B", "silver", "s", 5, .approved⟩,
       100, 100 / 10 * 5, .cash⟩
      (by
        have e1 : pyLower "cash" = "cash" := by decide
        have e2 : pyLower "A" = "a" := by decide
        have e3 : pyLower "B" = "b" := by decide
        have ne1 : ("b" : String) ≠ "a" := by decide
        have ne2 : ("a" : String) ≠ "b" := by decide
        norm_num [transferCommand, parseWallet, findEconomy, convertCalc, Account.get,
          e1, e2, e3, ne1, ne2])
      (by norm_num [confirmTransfer, applyModify, walletDelta, Account.get, Ledger.update])
  refine ⟨?_, ?_, ?_⟩
  · rw [h.2.2.1]; norm_num
  · rw [h.2.2.2.1]; norm_num [Account.get]
  · rw [h.2.2.2.2]; norm_num [Account.get]

end BankerBot
